import Mathlib

/-!
Verification of the route-pruning workflow and response-interpretation
contract of forti_api_tools.py, via a shallow embedding in Lean.

Modelling conventions:
- a JSON value parsed by json.loads / response.json() is a JVal; a
  response body that cannot be parsed as JSON is modelled as none
  (get_json catches the exception and returns the Python value False);
- Python truthiness of a parsed JSON value is the function truthy;
- a Python exception escaping a function is Except.error (the string
  records the exception kind); a normal return is Except.ok;
- the HTTP capability is an oracle: the delete loop receives a function
  from sequence number to the (parsed) response body of the DELETE call.
-/

/-- JSON values as produced by Python json.loads: null, booleans,
integers (the appliance statuses and sequence numbers are integral),
strings, arrays and objects.  Object fields model the items of the
resulting Python dict, whose keys are distinct. -/
inductive JVal : Type where
  | null : JVal
  | bool : Bool → JVal
  | num : Int → JVal
  | str : String → JVal
  | arr : List JVal → JVal
  | obj : List (String × JVal) → JVal

/-- Python truthiness of a parsed JSON value: None, False, 0, the empty
string, the empty list and the empty dict are falsy, everything else is
truthy. -/
def truthy : JVal → Bool
  | JVal.null => false
  | JVal.bool b => b
  | JVal.num n => n != 0
  | JVal.str s => s != ""
  | JVal.arr l => !l.isEmpty
  | JVal.obj l => !l.isEmpty

/-- Key lookup in the field list of an object. -/
def lookupField : List (String × JVal) → String → Option JVal
  | [], _ => none
  | (k, v) :: rest, key => if k = key then some v else lookupField rest key

/-- Python subscription rjson[key] with a string key: succeeds only on a
dict holding the key; a dict missing the key raises KeyError, any other
value raises TypeError. -/
def getItem (j : JVal) (key : String) : Except String JVal :=
  match j with
  | JVal.obj fields =>
    match lookupField fields key with
    | some v => Except.ok v
    | none => Except.error "KeyError"
  | _ => Except.error "TypeError"

/-- Python equality status == m between a JSON value and an integer
literal: an integer compares by value, a boolean compares as 1 or 0
(Python bool is a subtype of int), anything else is unequal. -/
def jeqInt : JVal → Int → Bool
  | JVal.num n, m => n == m
  | JVal.bool b, m => (if b then (1 : Int) else 0) == m
  | _, _ => false

/-- Request Outcome: one tag per branch of check_response.
MalformedResponse is the branch printing "Failed to retrieve JSON
response"; UnknownError carries the raw status value the code prints. -/
inductive Outcome : Type where
  | Success : Outcome
  | InvalidRequestFormat : Outcome
  | PermissionDenied : Outcome
  | ResourceNotFound : Outcome
  | UnsupportedMethod : Outcome
  | DependencyError : Outcome
  | InternalServerError : Outcome
  | UnknownError : JVal → Outcome
  | MalformedResponse : Outcome

/-- Embedding of get_json(response): returns the parsed JSON value, or
the Python value False when response.json() raises. -/
def get_json (response : Option JVal) : JVal :=
  match response with
  | some rjson => rjson
  | none => JVal.bool false

/-- Embedding of check_response(res, verbose).  The verbose flag only
gates diagnostic printing in the source and does not affect the result.
Mirrors the source: get_json first; a falsy rjson takes the
"Failed to retrieve JSON response" branch; otherwise the unguarded
subscription rjson["http_status"] (which can raise), then the
status-code chain. -/
def check_response (res : Option JVal) (verbose : Bool) : Except String Outcome :=
  let rjson := get_json res
  if truthy rjson = false then
    Except.ok Outcome.MalformedResponse
  else
    match getItem rjson "http_status" with
    | Except.error e => Except.error e
    | Except.ok status =>
      Except.ok
        (if jeqInt status 200 then Outcome.Success
         else if jeqInt status 400 then Outcome.InvalidRequestFormat
         else if jeqInt status 403 then Outcome.PermissionDenied
         else if jeqInt status 404 then Outcome.ResourceNotFound
         else if jeqInt status 405 then Outcome.UnsupportedMethod
         else if jeqInt status 424 then Outcome.DependencyError
         else if jeqInt status 500 then Outcome.InternalServerError
         else Outcome.UnknownError status)

/-- Embedding of FGT.get: returns res.text, the raw response body,
without interpretation. -/
def FGT_get (responseText : String) : String :=
  responseText

/-- Embedding of the tail of FGT.post: return check_response(res, False). -/
def FGT_post (res : Option JVal) : Except String Outcome :=
  check_response res false

/-- Embedding of the tail of FGT.put: return check_response(res, False). -/
def FGT_put (res : Option JVal) : Except String Outcome :=
  check_response res false

/-- Embedding of the tail of FGT.delete: return check_response(res, False). -/
def FGT_delete (res : Option JVal) : Except String Outcome :=
  check_response res false

/-- One static route entry as consumed by routes_remove_non_default:
the seq-num, dst and device fields of one element of results. -/
structure Route : Type where
  seq_num : Int
  dst : String
  device : String
deriving DecidableEq

/-- The default network destination string. -/
def defaultDst : String := "0.0.0.0 0.0.0.0"

/-- Ordering relation used by the reverse sort: a comes no later than b
when the sequence number of a is at least that of b. -/
def seqGE (a b : Route) : Prop := b.seq_num ≤ a.seq_num

instance : DecidableRel seqGE :=
  fun a b => inferInstanceAs (Decidable (b.seq_num ≤ a.seq_num))

instance : IsTotal Route seqGE :=
  ⟨fun a b => le_total b.seq_num a.seq_num⟩

instance : IsTrans Route seqGE :=
  ⟨fun _ _ _ hab hbc => le_trans hbc hab⟩

/-- The Deletion Plan of routes_remove_non_default: keep the routes
whose dst differs from "0.0.0.0 0.0.0.0", then
routes_to_delete.sort(reverse=True, key=returnSeqNum).  Python list.sort
is stable, so the reverse sort is modelled by the stable insertion sort
under seqGE. -/
def routes_to_delete (results : List Route) : List Route :=
  List.insertionSort seqGE
    (results.filter (fun route => decide (route.dst ≠ defaultDst)))

/-- Extraction of the fields the source reads from one element of
results: route["dst"] in the filter, route["seq-num"] in the sort key
and the DELETE URL, route["device"] in the log line.  A non-dict
element or a missing or ill-typed field raises. -/
def toRoute (j : JVal) : Except String Route :=
  match getItem j "dst", getItem j "seq-num", getItem j "device" with
  | Except.ok (JVal.str d), Except.ok (JVal.num s), Except.ok (JVal.str dev) =>
      Except.ok { seq_num := s, dst := d, device := dev }
  | Except.error e, _, _ => Except.error e
  | _, Except.error e, _ => Except.error e
  | _, _, Except.error e => Except.error e
  | _, _, _ => Except.error "TypeError"

/-- Fetch-and-parse stage of routes_remove_non_default: json.loads of
the fetched body (raising on an unparseable body), the subscription
res_dict["results"] (raising when the key is missing), then the
per-element field reads of the loop.  Any raise aborts the run before
any DELETE is issued. -/
def fetch_parse (body : Option JVal) : Except String (List Route) :=
  match body with
  | none => Except.error "JSONDecodeError"
  | some resDict =>
    match getItem resDict "results" with
    | Except.error e => Except.error e
    | Except.ok results =>
      match results with
      | JVal.arr elems => elems.mapM toRoute
      | _ => Except.error "TypeError"

/-- Deletion loop of routes_remove_non_default: for each route of the
plan in order, issue DELETE cmdb/router/static/{seq-num} (recorded in
the first component), interpret the response through check_response
(FGT.delete), and continue to the next route whatever the outcome.
Only an exception escaping check_response aborts the loop. -/
def deleteLoop (responses : Int → Option JVal) :
    List Route → List Int × Except String (List (Route × Outcome))
  | [] => ([], Except.ok [])
  | route :: rest =>
    match check_response (responses route.seq_num) false with
    | Except.error e => ([route.seq_num], Except.error e)
    | Except.ok outcome =>
      match deleteLoop responses rest with
      | (issued, result) =>
        (route.seq_num :: issued,
         Except.map (fun pairs => (route, outcome) :: pairs) result)

/-- Embedding of fnt_tools.routes_remove_non_default: fetch and parse
the route table, build the Deletion Plan, run the deletion loop.  The
first component lists the sequence numbers for which a DELETE request
was issued, in order; the second is the normal result (the per-route
outcomes) or the escaping exception. -/
def routes_remove_non_default (body : Option JVal)
    (responses : Int → Option JVal) :
    List Int × Except String (List (Route × Outcome)) :=
  match fetch_parse body with
  | Except.error e => ([], Except.error e)
  | Except.ok results => deleteLoop responses (routes_to_delete results)

/-! Helper lemmas about the Deletion Plan. -/

/-- The Deletion Plan is a permutation of the filtered table. -/
theorem plan_perm (T : List Route) :
    (routes_to_delete T).Perm
      (T.filter (fun route => decide (route.dst ≠ defaultDst))) :=
  List.perm_insertionSort _ _

/-- Membership in the Deletion Plan. -/
theorem mem_plan {r : Route} {T : List Route} :
    r ∈ routes_to_delete T ↔ r ∈ T ∧ r.dst ≠ defaultDst := by
  unfold routes_to_delete
  simp [List.mem_filter]

/-- The Deletion Plan is sorted under seqGE. -/
theorem plan_sorted (T : List Route) :
    (routes_to_delete T).Pairwise seqGE :=
  List.sorted_insertionSort _ _

/-- C1: for every fetched route table whose routes have pairwise-distinct
sequence_number values, the Deletion Plan is sorted strictly descending
by sequence_number; on the three-route scenario table the plan is
exactly the routes with sequence numbers 3 and 2, in that order. -/
theorem C1_plan_strictly_descending (T : List Route)
    (hdist : (T.map Route.seq_num).Nodup) :
    (routes_to_delete T).Pairwise (fun a b => b.seq_num < a.seq_num) ∧
    routes_to_delete
        [{ seq_num := 1, dst := "0.0.0.0 0.0.0.0", device := "wan1" },
         { seq_num := 2, dst := "10.0.0.0 255.0.0.0", device := "vpn1" },
         { seq_num := 3, dst := "10.0.0.0 255.0.0.0", device := "vpn2" }] =
      [{ seq_num := 3, dst := "10.0.0.0 255.0.0.0", device := "vpn2" },
       { seq_num := 2, dst := "10.0.0.0 255.0.0.0", device := "vpn1" }] := by
  constructor
  · have hsorted : (routes_to_delete T).Pairwise seqGE := plan_sorted T
    have hsub :
        List.Sublist
          ((T.filter (fun route => decide (route.dst ≠ defaultDst))).map Route.seq_num)
          (T.map Route.seq_num) :=
      (List.filter_sublist T).map Route.seq_num
    have hndf :
        ((T.filter (fun route => decide (route.dst ≠ defaultDst))).map Route.seq_num).Nodup :=
      hdist.sublist hsub
    have hnd : ((routes_to_delete T).map Route.seq_num).Nodup :=
      (((plan_perm T).map Route.seq_num).nodup_iff).mpr hndf
    have hne : (routes_to_delete T).Pairwise (fun a b => a.seq_num ≠ b.seq_num) :=
      List.pairwise_map.mp hnd
    exact (hsorted.and hne).imp fun h => lt_of_le_of_ne h.1 (Ne.symm h.2)
  · decide

/-- C1 witness: the hypothesis and conclusion at the scenario table. -/
theorem C1_witness :
    (routes_to_delete
        [{ seq_num := 1, dst := "0.0.0.0 0.0.0.0", device := "wan1" },
         { seq_num := 2, dst := "10.0.0.0 255.0.0.0", device := "vpn1" },
         { seq_num := 3, dst := "10.0.0.0 255.0.0.0", device := "vpn2" }]).Pairwise
      (fun a b => b.seq_num < a.seq_num) :=
  (C1_plan_strictly_descending
    [{ seq_num := 1, dst := "0.0.0.0 0.0.0.0", device := "wan1" },
     { seq_num := 2, dst := "10.0.0.0 255.0.0.0", device := "vpn1" },
     { seq_num := 3, dst := "10.0.0.0 255.0.0.0", device := "vpn2" }]
    (by decide)).1

/-- C2: for every fetched route table, the Deletion Plan excludes every
route whose destination equals the default network and contains every
other route with the multiplicity it has in the table. -/
theorem C2_plan_is_non_default_routes (T : List Route) :
    (∀ r ∈ routes_to_delete T, r.dst ≠ defaultDst) ∧
    ∀ r : Route, (routes_to_delete T).count r =
      if r.dst = defaultDst then 0 else T.count r := by
  constructor
  · intro r hr
    exact (mem_plan.mp hr).2
  · intro r
    rw [(plan_perm T).count_eq r]
    by_cases h : r.dst = defaultDst
    · rw [if_pos h]
      apply List.count_eq_zero.mpr
      simp [List.mem_filter, h]
    · rw [if_neg h]
      exact List.count_filter (by simp [h])

/-- C7: if a second table holds only routes of the first table that were
not in the first Deletion Plan, the second Deletion Plan is empty and
the deletion loop issues no DELETE. -/
theorem C7_second_run_empty_plan (T T2 : List Route)
    (responses : Int → Option JVal)
    (h : ∀ r ∈ T2, r ∈ T ∧ r ∉ routes_to_delete T) :
    routes_to_delete T2 = [] ∧
    deleteLoop responses (routes_to_delete T2) = ([], Except.ok []) := by
  have hplan : routes_to_delete T2 = [] := by
    unfold routes_to_delete
    have hfilter :
        T2.filter (fun route => decide (route.dst ≠ defaultDst)) = [] := by
      apply List.filter_eq_nil_iff.mpr
      intro r hr
      obtain ⟨hmem, hnot⟩ := h r hr
      simp only [decide_eq_true_eq, not_not]
      by_contra hne
      exact hnot (mem_plan.mpr ⟨hmem, hne⟩)
    rw [hfilter]
    rfl
  exact ⟨hplan, by rw [hplan]; rfl⟩

/-- C7 witness: the scenario table, re-fetched after its plan was
deleted, leaves only the default route and an empty second plan. -/
theorem C7_witness :
    routes_to_delete [{ seq_num := 1, dst := "0.0.0.0 0.0.0.0", device := "wan1" }] = [] ∧
    deleteLoop (fun _ => none)
      (routes_to_delete
        [{ seq_num := 1, dst := "0.0.0.0 0.0.0.0", device := "wan1" }]) =
      ([], Except.ok []) :=
  C7_second_run_empty_plan
    [{ seq_num := 1, dst := "0.0.0.0 0.0.0.0", device := "wan1" },
     { seq_num := 2, dst := "10.0.0.0 255.0.0.0", device := "vpn1" },
     { seq_num := 3, dst := "10.0.0.0 255.0.0.0", device := "vpn2" }]
    [{ seq_num := 1, dst := "0.0.0.0 0.0.0.0", device := "wan1" }]
    (fun _ => none)
    (by decide)

/-- Helper: when every response of the plan yields an outcome (no
exception escapes check_response), the loop visits the whole plan in
order and reports one (route, outcome) pair per route. -/
theorem deleteLoop_complete (responses : Int → Option JVal)
    (plan : List Route)
    (h : ∀ r ∈ plan, ∃ o, check_response (responses r.seq_num) false = Except.ok o) :
    (deleteLoop responses plan).1 = plan.map Route.seq_num ∧
    ∃ pairs, (deleteLoop responses plan).2 = Except.ok pairs ∧
      pairs.map Prod.fst = plan ∧
      ∀ p ∈ pairs, check_response (responses p.1.seq_num) false = Except.ok p.2 := by
  induction plan with
  | nil => exact ⟨rfl, [], rfl, rfl, by intro p hp; cases hp⟩
  | cons route rest ih =>
    obtain ⟨o, ho⟩ := h route (List.mem_cons_self route rest)
    obtain ⟨h1, pairs, h2, h3, h4⟩ :=
      ih (fun r hr => h r (List.mem_cons_of_mem route hr))
    refine ⟨?_, (route, o) :: pairs, ?_, ?_, ?_⟩
    · simp [deleteLoop, ho, h1]
    · simp [deleteLoop, ho, h2, Except.map]
    · simp [h3]
    · intro p hp
      rcases List.mem_cons.mp hp with rfl | hp
      · exact ho
      · exact h4 p hp

/-- C6: a non-Success outcome for one route does not abort the run:
whenever every DELETE response is interpreted to some outcome, a DELETE
is issued for every route of the plan, in plan order, and the run
reports the full list of (route, outcome) pairs. -/
theorem C6_best_effort_loop (plan : List Route)
    (responses : Int → Option JVal)
    (h : ∀ r ∈ plan, ∃ o, check_response (responses r.seq_num) false = Except.ok o) :
    (deleteLoop responses plan).1 = plan.map Route.seq_num ∧
    ∃ pairs, (deleteLoop responses plan).2 = Except.ok pairs ∧
      pairs.map Prod.fst = plan ∧
      ∀ p ∈ pairs, check_response (responses p.1.seq_num) false = Except.ok p.2 :=
  deleteLoop_complete responses plan h

/-- C6 witness: a plan of two routes whose first DELETE fails with a 500
vendor status; the second DELETE is still issued. -/
theorem C6_witness :
    (deleteLoop
        (fun n => if n = 3 then some (JVal.obj [("http_status", JVal.num 500)])
                  else some (JVal.obj [("http_status", JVal.num 200)]))
        [{ seq_num := 3, dst := "10.0.0.0 255.0.0.0", device := "vpn2" },
         { seq_num := 2, dst := "10.0.0.0 255.0.0.0", device := "vpn1" }]).1 =
      [3, 2] := by
  have h :=
    (C6_best_effort_loop
      [{ seq_num := 3, dst := "10.0.0.0 255.0.0.0", device := "vpn2" },
       { seq_num := 2, dst := "10.0.0.0 255.0.0.0", device := "vpn1" }]
      (fun n => if n = 3 then some (JVal.obj [("http_status", JVal.num 500)])
                else some (JVal.obj [("http_status", JVal.num 200)]))
      (by
        intro r hr
        rcases List.mem_cons.mp hr with rfl | hr
        · exact ⟨Outcome.InternalServerError, rfl⟩
        rcases List.mem_cons.mp hr with rfl | hr
        · exact ⟨Outcome.Success, rfl⟩
        cases hr)).1
  simpa using h

/-- C5: a fetch body that is unparseable JSON or lacks the results key
makes the run fail: the parse exception escapes and no DELETE is
issued. -/
theorem C5_fetch_failure_is_fatal (body : Option JVal)
    (responses : Int → Option JVal)
    (h : body = none ∨
         ∃ j e, body = some j ∧ getItem j "results" = Except.error e) :
    (routes_remove_non_default body responses).1 = [] ∧
    ∃ e, (routes_remove_non_default body responses).2 = Except.error e := by
  rcases h with rfl | ⟨j, e, rfl, hj⟩
  · exact ⟨rfl, "JSONDecodeError", rfl⟩
  · have hfp : fetch_parse (some j) = Except.error e := by
      simp only [fetch_parse, hj]
    unfold routes_remove_non_default
    rw [hfp]
    exact ⟨rfl, e, rfl⟩

/-- C5 witness: a body parsed to an object without a results key. -/
theorem C5_witness :
    (routes_remove_non_default (some (JVal.obj [("foo", JVal.num 1)]))
        (fun _ => none)).1 = [] ∧
    ∃ e, (routes_remove_non_default (some (JVal.obj [("foo", JVal.num 1)]))
        (fun _ => none)).2 = Except.error e :=
  C5_fetch_failure_is_fatal (some (JVal.obj [("foo", JVal.num 1)]))
    (fun _ => none)
    (Or.inr ⟨JVal.obj [("foo", JVal.num 1)], "KeyError", rfl, rfl⟩)

/-- C4 counterexample: on a fetched table with duplicate seq-num 2 the
run does not abort before planning; it issues a DELETE for both
duplicate routes, so the claim "aborts with DataIntegrityError, no
DELETE issued" is false on the code. -/
theorem C4_counterexample :
    (routes_remove_non_default
        (some (JVal.obj [("results", JVal.arr
          [JVal.obj [("seq-num", JVal.num 2),
                     ("dst", JVal.str "10.0.0.0 255.0.0.0"),
                     ("device", JVal.str "vpn1")],
           JVal.obj [("seq-num", JVal.num 2),
                     ("dst", JVal.str "10.1.0.0 255.255.0.0"),
                     ("device", JVal.str "vpn2")]])]))
        (fun _ => some (JVal.obj [("http_status", JVal.num 200)]))).1 =
      [2, 2] ∧
    ([2, 2] : List Int) ≠ [] := by
  exact ⟨by decide, by decide⟩

/-- C4 amended: on a fetched table with duplicate seq-num values the
run does not abort: no duplicate check exists, the Deletion Plan is
built anyway, and a DELETE is issued for every route of the plan
(duplicates included), with the full outcome report. -/
theorem C4_duplicates_not_checked (body : Option JVal) (T : List Route)
    (responses : Int → Option JVal)
    (hparse : fetch_parse body = Except.ok T)
    (hdup : ¬ (T.map Route.seq_num).Nodup)
    (hok : ∀ r ∈ routes_to_delete T,
      ∃ o, check_response (responses r.seq_num) false = Except.ok o) :
    (routes_remove_non_default body responses).1 =
      (routes_to_delete T).map Route.seq_num ∧
    ∃ pairs, (routes_remove_non_default body responses).2 = Except.ok pairs ∧
      pairs.map Prod.fst = routes_to_delete T := by
  have hrun : routes_remove_non_default body responses =
      deleteLoop responses (routes_to_delete T) := by
    unfold routes_remove_non_default
    rw [hparse]
  obtain ⟨h1, pairs, h2, h3, _⟩ := deleteLoop_complete responses (routes_to_delete T) hok
  rw [hrun]
  exact ⟨h1, pairs, h2, h3⟩

/-- C4 witness: the duplicate-seq-num table, with 200 responses. -/
theorem C4_witness :
    (routes_remove_non_default
        (some (JVal.obj [("results", JVal.arr
          [JVal.obj [("seq-num", JVal.num 2),
                     ("dst", JVal.str "10.0.0.0 255.0.0.0"),
                     ("device", JVal.str "vpn1")],
           JVal.obj [("seq-num", JVal.num 2),
                     ("dst", JVal.str "10.1.0.0 255.255.0.0"),
                     ("device", JVal.str "vpn2")]])]))
        (fun _ => some (JVal.obj [("http_status", JVal.num 200)]))).1 =
      [2, 2] := by
  have h :=
    (C4_duplicates_not_checked
      (some (JVal.obj [("results", JVal.arr
        [JVal.obj [("seq-num", JVal.num 2),
                   ("dst", JVal.str "10.0.0.0 255.0.0.0"),
                   ("device", JVal.str "vpn1")],
         JVal.obj [("seq-num", JVal.num 2),
                   ("dst", JVal.str "10.1.0.0 255.255.0.0"),
                   ("device", JVal.str "vpn2")]])]))
      [{ seq_num := 2, dst := "10.0.0.0 255.0.0.0", device := "vpn1" },
       { seq_num := 2, dst := "10.1.0.0 255.255.0.0", device := "vpn2" }]
      (fun _ => some (JVal.obj [("http_status", JVal.num 200)]))
      rfl
      (by decide)
      (by
        intro r hr
        exact ⟨Outcome.Success, rfl⟩)).1
  rw [h]
  decide

/-- Helper: a successful field lookup forces the value to be a nonempty
dict, hence truthy. -/
theorem getItem_truthy {j : JVal} {key : String} {v : JVal}
    (h : getItem j key = Except.ok v) : truthy j = true := by
  cases j <;> simp [getItem] at h ⊢
  case obj fields =>
    cases fields with
    | nil => simp [lookupField] at h
    | cons p rest => rfl

/-- Helper: with a readable http_status field, check_response reduces to
the status chain. -/
theorem check_response_getItem {j v : JVal}
    (h : getItem j "http_status" = Except.ok v) :
    check_response (some j) false = Except.ok
      (if jeqInt v 200 then Outcome.Success
       else if jeqInt v 400 then Outcome.InvalidRequestFormat
       else if jeqInt v 403 then Outcome.PermissionDenied
       else if jeqInt v 404 then Outcome.ResourceNotFound
       else if jeqInt v 405 then Outcome.UnsupportedMethod
       else if jeqInt v 424 then Outcome.DependencyError
       else if jeqInt v 500 then Outcome.InternalServerError
       else Outcome.UnknownError v) := by
  have ht := getItem_truthy h
  simp [check_response, get_json, ht, h]

/-- C3: check_response returns Success exactly when the JSON body has an
http_status field equal to 200; it maps 400, 403, 404, 405, 424 and 500
to the categorized failures, any other integer status to UnknownError
carrying that code, and an unparseable body to MalformedResponse. -/
theorem C3_interpreter_contract :
    (∀ res, check_response res false = Except.ok Outcome.Success ↔
        ∃ j, res = some j ∧ getItem j "http_status" = Except.ok (JVal.num 200)) ∧
    (∀ j, getItem j "http_status" = Except.ok (JVal.num 400) →
        check_response (some j) false = Except.ok Outcome.InvalidRequestFormat) ∧
    (∀ j, getItem j "http_status" = Except.ok (JVal.num 403) →
        check_response (some j) false = Except.ok Outcome.PermissionDenied) ∧
    (∀ j, getItem j "http_status" = Except.ok (JVal.num 404) →
        check_response (some j) false = Except.ok Outcome.ResourceNotFound) ∧
    (∀ j, getItem j "http_status" = Except.ok (JVal.num 405) →
        check_response (some j) false = Except.ok Outcome.UnsupportedMethod) ∧
    (∀ j, getItem j "http_status" = Except.ok (JVal.num 424) →
        check_response (some j) false = Except.ok Outcome.DependencyError) ∧
    (∀ j, getItem j "http_status" = Except.ok (JVal.num 500) →
        check_response (some j) false = Except.ok Outcome.InternalServerError) ∧
    (∀ j n, n ∉ ([200, 400, 403, 404, 405, 424, 500] : List Int) →
        getItem j "http_status" = Except.ok (JVal.num n) →
        check_response (some j) false =
          Except.ok (Outcome.UnknownError (JVal.num n))) ∧
    check_response none false = Except.ok Outcome.MalformedResponse := by
  refine ⟨?_, ?_, ?_, ?_, ?_, ?_, ?_, ?_, rfl⟩
  · intro res
    constructor
    · intro hres
      match res with
      | none => simp [check_response, get_json, truthy] at hres
      | some j =>
        by_cases ht : truthy j = true
        · cases hg : getItem j "http_status" with
          | error e => simp [check_response, get_json, ht, hg] at hres
          | ok v =>
            refine ⟨j, rfl, ?_⟩
            rw [check_response_getItem hg] at hres
            by_cases h200 : jeqInt v 200 = true
            · cases v <;> simp [jeqInt] at h200
              · rename_i b
                cases b <;> simp_all
              · rename_i m
                subst h200
                exact hg
            · exfalso
              rw [if_neg h200] at hres
              split_ifs at hres <;> simp at hres
        · have ht2 : truthy j = false := by
            revert ht
            cases truthy j <;> simp
          simp [check_response, get_json, ht2] at hres
    · rintro ⟨j, rfl, hj⟩
      rw [check_response_getItem hj]
      simp [jeqInt]
  · intro j h
    rw [check_response_getItem h]
    simp [jeqInt]
  · intro j h
    rw [check_response_getItem h]
    simp [jeqInt]
  · intro j h
    rw [check_response_getItem h]
    simp [jeqInt]
  · intro j h
    rw [check_response_getItem h]
    simp [jeqInt]
  · intro j h
    rw [check_response_getItem h]
    simp [jeqInt]
  · intro j h
    rw [check_response_getItem h]
    simp [jeqInt]
  · intro j n hn h
    simp only [List.mem_cons, List.not_mem_nil, or_false, not_or] at hn
    obtain ⟨e1, e2, e3, e4, e5, e6, e7⟩ := hn
    rw [check_response_getItem h]
    simp [jeqInt, e1, e2, e3, e4, e5, e6, e7]

/-- C3 witness: a body with http_status 403 is PermissionDenied. -/
theorem C3_witness :
    check_response (some (JVal.obj [("http_status", JVal.num 403)])) false =
      Except.ok Outcome.PermissionDenied :=
  C3_interpreter_contract.2.2.1 (JVal.obj [("http_status", JVal.num 403)]) rfl

/-- C8: POST, PUT and DELETE interpret an identical response through the
same interpreter and produce the same outcome, while GET returns the raw
text body without interpretation. -/
theorem C8_verb_agnostic :
    (∀ res : Option JVal,
        FGT_post res = FGT_put res ∧
        FGT_put res = FGT_delete res ∧
        FGT_post res = check_response res false) ∧
    ∀ text : String, FGT_get text = text :=
  ⟨fun _ => ⟨rfl, rfl, rfl⟩, fun _ => rfl⟩

/-- C9: a body that parses to a falsy JSON value is treated exactly like
an unparseable body: the failed-JSON branch runs and the result is the
MalformedResponse failure, without attempting status interpretation. -/
theorem C9_falsy_body_malformed (j : JVal) (h : truthy j = false) :
    check_response (some j) false = check_response none false ∧
    check_response (some j) false = Except.ok Outcome.MalformedResponse := by
  have hs : check_response (some j) false = Except.ok Outcome.MalformedResponse := by
    simp [check_response, get_json, h]
  have hn : check_response none false = Except.ok Outcome.MalformedResponse := rfl
  exact ⟨hs.trans hn.symm, hs⟩

/-- C9 witness: the empty JSON object is falsy and malformed. -/
theorem C9_witness :
    check_response (some (JVal.obj [])) false = check_response none false ∧
    check_response (some (JVal.obj [])) false =
      Except.ok Outcome.MalformedResponse :=
  C9_falsy_body_malformed (JVal.obj []) rfl

/-- C10: a truthy JSON body without the http_status key makes the
unguarded subscription raise: check_response produces no outcome at all
on this valid-JSON input. -/
theorem C10_missing_key_raises :
    truthy (JVal.obj [("status", JVal.str "ok")]) = true ∧
    check_response (some (JVal.obj [("status", JVal.str "ok")])) false =
      Except.error "KeyError" :=
  ⟨rfl, rfl⟩
